import Mathlib

/-!
Verification development for the distributed test/error-fix coordination engine
(`error_distributor.py`, `distributed_coordinator.py`, `parallel_executor.py`).

The Python sources are shallowly embedded:
* pure classification code (`ErrorClassifier`) becomes pure Lean functions over
  `List Char` strings (Python `str.lower`, `str.split`, substring tests and
  `re.search` with `re.IGNORECASE` are reimplemented executably);
* the stateful coordinator becomes explicit state passing over `CoordState`;
  the SQS queue, the S3 store and the black-box inference step are modelled as
  data inside the state resp. as oracle functions supplied to each operation;
* Python floats are modelled as `ℚ` (every priority score is a rational with at
  most two decimal digits, where `round(x, 2)` is exact, so no floating-point
  rounding behaviour is observable in the modelled quantities);
* wall-clock readings (`time.time()`, `datetime.now()`) are outside the model:
  timestamp strings are fixed to `""` and measured durations to `0`.
-/

namespace Ddf

/-! ### Character-level string utilities

Python's `str.lower`, `'x' in s` (substring test) and `s.split('.')`,
reimplemented over `List Char` so that everything reduces in the kernel.
Lowercasing is ASCII-only; every string the embedded code manipulates
(error patterns, file paths, critical-path fragments) is ASCII. -/

/-- ASCII lowercasing of one character (Python `str.lower` on ASCII input). -/
def charLower (c : Char) : Char :=
  if c.toNat ≥ 65 && c.toNat ≤ 90 then Char.ofNat (c.toNat + 32) else c

/-- ASCII lowercasing of a string given as a character list. -/
def lowerL (l : List Char) : List Char := l.map charLower

/-- Characters of a string literal (notation convenience). -/
def cs (s : String) : List Char := s.data

/-- The apostrophe character, written via its code point. -/
def aq : Char := Char.ofNat 39

/-- Substring test: Python `needle in hay`. -/
def isSubstrL (needle : List Char) : List Char → Bool
  | [] => needle.isEmpty
  | c :: t => needle.isPrefixOf (c :: t) || isSubstrL needle t

/-- Python `s.split('.')`: split at every dot, keeping empty pieces. -/
def splitDot : List Char → List (List Char)
  | [] => [[]]
  | c :: t =>
    match splitDot t with
    | [] => [[c]]
    | h :: rest => if c == '.' then [] :: h :: rest else (c :: h) :: rest

/-! ### A small regular-expression engine

`ErrorClassifier` matches error messages with `re.search(pattern, message,
re.IGNORECASE)`.  The patterns only use literals, `.`, `\d`, `+`, `*` and one
alternation group, so a Brzozowski-derivative matcher over this fragment is a
faithful executable model.  Case-insensitivity is obtained by lowercasing the
subject (the patterns below are spelled in lowercase). -/

/-- Regular expressions: the fragment used by the classifier patterns. -/
inductive RE where
  | fail : RE
  | eps : RE
  | chr : Char → RE
  | anyc : RE
  | digit : RE
  | cat : RE → RE → RE
  | alt : RE → RE → RE
  | star : RE → RE
deriving DecidableEq

/-- Whether a regular expression accepts the empty string. -/
def nullable : RE → Bool
  | .fail => false
  | .eps => true
  | .chr _ => false
  | .anyc => false
  | .digit => false
  | .cat r s => nullable r && nullable s
  | .alt r s => nullable r || nullable s
  | .star _ => true

/-- Brzozowski derivative of a regular expression by one character.
`anyc` is Python's `.`: any character except a newline; `digit` is `\d`
restricted to ASCII digits (all subject strings here are ASCII). -/
def deriv (r : RE) (c : Char) : RE :=
  match r with
  | .fail => .fail
  | .eps => .fail
  | .chr d => if c == d then .eps else .fail
  | .anyc => if c.toNat == 10 then .fail else .eps
  | .digit => if c.toNat ≥ 48 && c.toNat ≤ 57 then .eps else .fail
  | .cat r s => if nullable r then .alt (.cat (deriv r c) s) (deriv s c) else .cat (deriv r c) s
  | .alt r s => .alt (deriv r c) (deriv s c)
  | .star r => .cat (deriv r c) (.star r)

/-- Whole-string matching by iterated derivatives. -/
def matchesL (r : RE) : List Char → Bool
  | [] => nullable r
  | c :: t => matchesL (deriv r c) t

/-- Literal regular expression from a character list. -/
def lit (l : List Char) : RE := l.foldr (fun c r => RE.cat (RE.chr c) r) RE.eps

/-- Concatenation of a list of regular expressions. -/
def rcat (l : List RE) : RE := l.foldr RE.cat RE.eps

/-- Python `.*` (greediness is irrelevant for acceptance). -/
def dotstar : RE := RE.star RE.anyc

/-- Python `\d+`. -/
def digits1 : RE := RE.cat RE.digit (RE.star RE.digit)

/-- A truly arbitrary character, newline included: used for the implicit
padding around a pattern that `re.search` provides. -/
def anytot : RE := RE.alt RE.anyc (RE.chr (Char.ofNat 10))

/-- Python `re.search(pattern, message, re.IGNORECASE)`: the pattern matches
some substring of the lowercased message. -/
def searchRE (r : RE) (msg : String) : Bool :=
  matchesL (RE.cat (RE.star anytot) (RE.cat r (RE.star anytot))) (lowerL msg.data)

/-! ### Error model (`error_distributor.py`, lines 20 to 64) -/

/-- Types of errors that can be classified and routed (`ErrorType`). -/
inductive ErrorType where
  | typescript
  | react
  | test
  | lint
  | build
  | runtime
  | dependency
  | general
deriving DecidableEq

/-- Error severity levels for prioritization (`ErrorSeverity`). -/
inductive ErrorSeverity where
  | critical
  | high
  | medium
  | low
deriving DecidableEq

/-- Numeric value of a severity: `CRITICAL = 1`, `HIGH = 2`, `MEDIUM = 3`,
`LOW = 4` (`ErrorSeverity` enum values). -/
def severity_value : ErrorSeverity → Nat
  | .critical => 1
  | .high => 2
  | .medium => 3
  | .low => 4

/-- Context information for an error (`ErrorContext`). -/
structure ErrorContext where
  file_path : String
  line_number : Option Int := none
  column_number : Option Int := none
  function_name : Option String := none
  class_name : Option String := none
  surrounding_code : Option String := none
deriving DecidableEq

/-! ### Classifier patterns (`ErrorClassifier.__init__`, lines 87 to 143)

Each Python raw-string regex is transcribed to an `RE` value, lowercased
because `searchRE` lowercases the subject. -/

/-- Patterns for `ErrorType.TYPESCRIPT`. -/
def typescript_patterns : List RE :=
  [ rcat [lit (cs "ts"), digits1, lit (cs ":")],
    rcat [lit (cs "type " ++ [aq]), dotstar, lit ([aq] ++ cs " is not assignable to type")],
    rcat [lit (cs "property " ++ [aq]), dotstar, lit ([aq] ++ cs " does not exist on type")],
    rcat [lit (cs "cannot find name " ++ [aq]), dotstar, lit [aq]],
    rcat [lit (cs "expected "), digits1, lit (cs " arguments, but got "), digits1],
    lit (cs "object is possibly " ++ [aq] ++ cs "null" ++ [aq]),
    lit (cs "object is possibly " ++ [aq] ++ cs "undefined" ++ [aq]) ]

/-- Patterns for `ErrorType.REACT`. -/
def react_patterns : List RE :=
  [ lit (cs "react hook"),
    lit (cs "invalid hook call"),
    rcat [lit (cs "cannot read propert"), RE.alt (lit (cs "y")) (lit (cs "ies")),
          lit (cs " of undefined")],
    rcat [lit (cs "cannot read propert"), RE.alt (lit (cs "y")) (lit (cs "ies")),
          lit (cs " of null")],
    rcat [lit (cs "jsx element "), dotstar, lit (cs " has no corresponding closing tag")],
    lit (cs "expected an assignment or function call") ]

/-- Patterns for `ErrorType.TEST`. -/
def test_patterns : List RE :=
  [ lit (cs "test failed"),
    rcat [lit (cs "expect("), dotstar, lit (cs ").to")],
    lit (cs "assertionerror"),
    rcat [lit (cs "referenceerror"), dotstar, lit (cs "describe")],
    rcat [lit (cs "referenceerror"), dotstar, lit (cs "it")],
    rcat [lit (cs "referenceerror"), dotstar, lit (cs "expect")],
    lit (cs "vitest"),
    lit (cs "jest") ]

/-- Patterns for `ErrorType.LINT`. -/
def lint_patterns : List RE :=
  [ lit (cs "eslint"),
    lit (cs "parsing error"),
    rcat [lit [aq], dotstar, lit ([aq] ++ cs " is defined but never used")],
    lit (cs "missing semicolon"),
    lit (cs "unexpected token") ]

/-- Patterns for `ErrorType.BUILD`. -/
def build_patterns : List RE :=
  [ lit (cs "build failed"),
    lit (cs "module not found"),
    lit (cs "cannot resolve module"),
    lit (cs "compilation error"),
    lit (cs "syntaxerror: unexpected token") ]

/-- Patterns for `ErrorType.RUNTIME`. -/
def runtime_patterns : List RE :=
  [ lit (cs "referenceerror"),
    lit (cs "typeerror"),
    lit (cs "rangeerror"),
    lit (cs "syntaxerror"),
    lit (cs "at runtime") ]

/-- Patterns for `ErrorType.DEPENDENCY`. -/
def dependency_patterns : List RE :=
  [ lit (cs "npm err!"),
    lit (cs "yarn error"),
    rcat [lit (cs "package "), dotstar, lit (cs " not found")],
    rcat [lit (cs "module "), dotstar, lit (cs " not found")],
    lit (cs "cannot find module") ]

/-- The `self.error_patterns` dict, in its Python insertion order, which is
also the iteration order of the generic scan in `_classify_error_type`. -/
def error_patterns : List (ErrorType × List RE) :=
  [ (.typescript, typescript_patterns),
    (.react, react_patterns),
    (.test, test_patterns),
    (.lint, lint_patterns),
    (.build, build_patterns),
    (.runtime, runtime_patterns),
    (.dependency, dependency_patterns) ]

/-- `any(re.search(p, message, re.IGNORECASE) for p in patterns)`. -/
def anyPatternMatches (ps : List RE) (msg : String) : Bool :=
  ps.any (fun r => searchRE r msg)

/-- The file extension used for classification:
`context.file_path.split('.')[-1].lower() if context.file_path else ""`. -/
def file_ext (ctx : ErrorContext) : List Char :=
  if ctx.file_path.data.isEmpty then []
  else lowerL ((splitDot ctx.file_path.data).getLast?.getD [])

/-- `'test' in context.file_path.lower() or 'spec' in context.file_path.lower()`. -/
def isTestPath (ctx : ErrorContext) : Bool :=
  isSubstrL (cs "test") (lowerL ctx.file_path.data) ||
    isSubstrL (cs "spec") (lowerL ctx.file_path.data)

/-- The generic pattern-table scan at the end of `_classify_error_type`
(lines 248 to 250): first pattern group that matches wins, else GENERAL. -/
def scanFirst (msg : String) : List (ErrorType × List RE) → ErrorType
  | [] => .general
  | (t, ps) :: rest => if anyPatternMatches ps msg then t else scanFirst msg rest

/-- `ErrorClassifier._classify_error_type` (lines 231 to 252): TypeScript
files get priority for TS classification, then test files for test
classification, then the generic ordered scan, else GENERAL. -/
def classify_error_type (msg : String) (ctx : ErrorContext) : ErrorType :=
  if (file_ext ctx == cs "ts" || file_ext ctx == cs "tsx")
      && anyPatternMatches typescript_patterns msg then .typescript
  else if isTestPath ctx && anyPatternMatches test_patterns msg then .test
  else scanFirst msg error_patterns

/-- First entry of an ordered (condition, type) list whose condition holds,
defaulting to GENERAL: the spec's view of classification as an explicit
ordered list of (predicate, type) pairs. -/
def firstTrue : List (Bool × ErrorType) → ErrorType
  | [] => .general
  | (b, t) :: rest => if b then t else firstTrue rest

/-- Classification as the specification words it: one explicit ordered list
of (predicate, type) pairs, extension/path-priority checks first, then the
pattern groups in the fixed enumeration order, else GENERAL. -/
def classify_error_type_spec (msg : String) (ctx : ErrorContext) : ErrorType :=
  firstTrue
    [ ((file_ext ctx == cs "ts" || file_ext ctx == cs "tsx")
         && anyPatternMatches typescript_patterns msg, .typescript),
      (isTestPath ctx && anyPatternMatches test_patterns msg, .test),
      (anyPatternMatches typescript_patterns msg, .typescript),
      (anyPatternMatches react_patterns msg, .react),
      (anyPatternMatches test_patterns msg, .test),
      (anyPatternMatches lint_patterns msg, .lint),
      (anyPatternMatches build_patterns msg, .build),
      (anyPatternMatches runtime_patterns msg, .runtime),
      (anyPatternMatches dependency_patterns msg, .dependency) ]

/-! ### Priority scoring (`ErrorClassifier.calculate_priority_score`,
lines 277 to 315) -/

/-- Per-type score multiplier (`type_multipliers` dict; `1.2 = 6/5` and so
on, written as exact rationals). -/
def type_multiplier : ErrorType → ℚ
  | .typescript => 6/5
  | .build => 13/10
  | .react => 11/10
  | .test => 1
  | .lint => 4/5
  | .runtime => 11/10
  | .dependency => 6/5
  | .general => 9/10

/-- The critical-path fragments of `calculate_priority_score`. -/
def critical_paths : List String :=
  ["src/main", "src/app", "src/index", "package.json", "tsconfig.json", "vite.config"]

/-- `context.file_path` is truthy and contains a critical-path fragment
(lines 307 to 312). -/
def is_critical_path (path : String) : Bool :=
  !path.data.isEmpty && critical_paths.any (fun c => isSubstrL c.data (lowerL path.data))

/-- Python `round(x, 2)` on the scores.  Every reachable score is an integer
multiple of `1/100` (an integer base times two one-decimal factors), where
rounding is the identity, so half-to-even versus half-up is unobservable;
we use `⌊x * 100 + 1/2⌋ / 100`. -/
def round2 (q : ℚ) : ℚ := (⌊q * 100 + 1/2⌋ : ℚ) / 100

/-- `ErrorClassifier.calculate_priority_score`: `base = 10.0 - severity`
(critical 9 … low 6), times the per-type multiplier, times `1.2` for
critical-path files, rounded to two decimals. -/
def calculate_priority_score (t : ErrorType) (s : ErrorSeverity) (ctx : ErrorContext) : ℚ :=
  let base : ℚ := 10 - (severity_value s : ℚ)
  let score := base * type_multiplier t
  let score2 := if is_critical_path ctx.file_path then score * (6/5) else score
  round2 score2

/-- The score exactly as claim C1 words it: `base = (max_severity_ordinal
+ 1) - severity_ordinal`, i.e. `5 - severity`, then the same multipliers
and rounding. -/
def claimed_priority_score (t : ErrorType) (s : ErrorSeverity) (ctx : ErrorContext) : ℚ :=
  let base : ℚ := (4 + 1) - (severity_value s : ℚ)
  round2 (base * type_multiplier t * (if is_critical_path ctx.file_path then 6/5 else 1))

/-- The score as the amended claim words it: `base = 10 - severity_ordinal`,
then the same multipliers and rounding. -/
def amended_priority_score (t : ErrorType) (s : ErrorSeverity) (ctx : ErrorContext) : ℚ :=
  round2 ((10 - (severity_value s : ℚ)) * type_multiplier t
    * (if is_critical_path ctx.file_path then 6/5 else 1))

/-! ### Job and result model (`distributed_coordinator.py`, lines 20 to 52)

`created_at` / `completed_at` are wall-clock timestamp strings outside the
model and fixed to `""`; `priority` is a Python `int`, modelled as `Int`
(the hybrid strategy distinguishes 1, 2, 3 from everything else);
`retry_count` and `max_retries` are the nonnegative counters of the retry
protocol, modelled as `Nat`. -/

/-- `TestJob`: a test-generation job. -/
structure TestJob where
  id : String
  code : String
  language : String
  test_type : String := "unit"
  priority : Int := 1
  retry_count : Nat := 0
  max_retries : Nat := 3
  created_at : String := ""
deriving DecidableEq

/-- `TestResult`: the outcome of one test job. -/
structure TestResult where
  job_id : String
  success : Bool
  tests_generated : Nat
  tests_passed : Nat
  tests_failed : Nat
  coverage_percentage : ℚ
  execution_time_ms : Nat
  error_message : Option String := none
  generated_tests : Option String := none
  completed_at : String := ""
deriving DecidableEq

/-! ### Coordinator state (`DistributedTestCoordinator`)

`queue` holds the jobs whose messages are currently visible in SQS (each
message body deserializes to exactly the job that was serialized into it);
`active_jobs` / `completed_jobs` are the coordinator's two dict fields;
`store` is the S3 bucket, a list of (job id, result) objects in `put`
order.  `submit_log` is ghost instrumentation: every job that
`submit_test_job` ever sent, in order, used to observe (re)submissions. -/

/-- The mutable state owned by one `DistributedTestCoordinator`. -/
structure CoordState where
  queue : List TestJob
  active_jobs : List (String × TestJob)
  completed_jobs : List (String × TestResult)
  store : List (String × TestResult)
  submit_log : List TestJob
deriving DecidableEq

/-- A coordinator with empty queue, maps and store. -/
def emptyCoord : CoordState := ⟨[], [], [], [], []⟩

/-- Python dict lookup `m[k]` / `k in m` on an association list. -/
def dlookup (m : List (String × β)) (k : String) : Option β :=
  (m.find? (fun p => p.1 == k)).map Prod.snd

/-- Python dict assignment `m[k] = v`. -/
def dinsert (m : List (String × β)) (k : String) (v : β) : List (String × β) :=
  (k, v) :: m.filter (fun p => p.1 != k)

/-- Python `del m[k]`. -/
def derase (m : List (String × β)) (k : String) : List (String × β) :=
  m.filter (fun p => p.1 != k)

/-- `DistributedTestCoordinator.submit_test_job` (lines 91 to 135), on the
success path of the transport: serializes the job, sends it to the queue,
and records it in `active_jobs`. -/
def submit_test_job (st : CoordState) (job : TestJob) : CoordState :=
  { st with
    queue := st.queue ++ [job],
    active_jobs := dinsert st.active_jobs job.id job,
    submit_log := st.submit_log ++ [job] }

/-- The mock result `_generate_tests` (lines 338 to 381) returns when the
inference step succeeds.  `execution_time_ms` is overwritten by the caller
with a wall-clock duration, fixed to `0` here; the generated-tests text is
abbreviated (its content is never inspected). -/
def generated_tests_result (job : TestJob) : TestResult :=
  { job_id := job.id
    success := true
    tests_generated := 2
    tests_passed := 2
    tests_failed := 0
    coverage_percentage := 171/2
    execution_time_ms := 0
    generated_tests := some "generated tests" }

/-- The terminal failure result synthesized on the retry-exhaustion path
(lines 314 to 323): zeroed metrics, `error_message = str(e)`. -/
def failure_result (id : String) (e : String) : TestResult :=
  { job_id := id
    success := false
    tests_generated := 0
    tests_passed := 0
    tests_failed := 0
    coverage_percentage := 0
    execution_time_ms := 0
    error_message := some e }

/-- `DistributedTestCoordinator._process_single_job` (lines 253 to 336) on a
received message whose body parses to `job` (the message has been leased, so
it is no longer in `st.queue`; deleting it means not putting it back).
`infer job = none` models the inference step succeeding with the mock
result; `infer job = some e` models any exception inside the try block,
caught with text `str(e) = e`.  On success: store the result, record it in
`completed_jobs`, drop the job from `active_jobs`, delete the message.  On
failure with retries left: resubmit with `retry_count + 1` and delete the
original message.  On exhaustion: persist the synthesized failure result
and delete the message — nothing else changes. -/
def process_single_job (infer : TestJob → Option String) (st : CoordState)
    (job : TestJob) : CoordState :=
  match infer job with
  | none =>
      let r := generated_tests_result job
      { st with
        store := st.store ++ [(job.id, r)],
        completed_jobs := dinsert st.completed_jobs job.id r,
        active_jobs := derase st.active_jobs job.id }
  | some e =>
      if job.retry_count < job.max_retries then
        submit_test_job st { job with retry_count := job.retry_count + 1 }
      else
        { st with store := st.store ++ [(job.id, failure_result job.id e)] }

/-- The consumer loop `process_test_jobs` (lines 200 to 251) specialised to
one message per receive, driven for `fuel` iterations: receive the oldest
visible message and process it.  An empty queue leaves the state unchanged
(the real loop long-polls and continues). -/
def run_consumer (infer : TestJob → Option String) : Nat → CoordState → CoordState
  | 0, st => st
  | fuel + 1, st =>
    match st.queue with
    | [] => st
    | job :: rest => run_consumer infer fuel (process_single_job infer { st with queue := rest } job)

/-- Result of `DistributedTestCoordinator.get_job_status` (lines 444 to 472). -/
inductive JobStatus where
  | completed (r : TestResult)
  | processing (j : TestJob)
  | not_found
deriving DecidableEq

/-- `get_job_status`: completed beats processing beats not-found. -/
def get_job_status (st : CoordState) (id : String) : JobStatus :=
  match dlookup st.completed_jobs id with
  | some r => .completed r
  | none =>
    match dlookup st.active_jobs id with
    | some j => .processing j
    | none => .not_found

/-! ### Batch submission (`submit_batch_jobs`, lines 137 to 198)

The SQS `send_message_batch` transport is an oracle
`sendB : List TestJob → Except String SendBatchResult`: `.ok (succ, fails)`
is a response listing per-entry successes `(Id, MessageId)` and per-entry
failures (their ids); `.error e` is a `ClientError` raised by the call.
The function returns the list of chunks for which `send_message_batch` was
actually invoked (the call transcript) together with either the final state
and collected message ids, or the exception that propagated. -/

/-- One SQS `send_message_batch` response: per-entry successes as
`(Id, MessageId)` pairs and per-entry failure ids. -/
abbrev SendBatchResult := List (String × String) × List String

/-- The per-chunk success loop (lines 178 to 185): for each successful
entry, find the job in the batch (`next(j for j in batch if j.id == job_id)`
raises `StopIteration` if absent) and add it to `active_jobs`. -/
def track_successes (batch : List TestJob) (st : CoordState) :
    List (String × String) → Except String (CoordState × List String)
  | [] => .ok (st, [])
  | (jid, mid) :: rest =>
    match batch.find? (fun j => j.id == jid) with
    | none => .error "StopIteration"
    | some j =>
      match track_successes batch { st with active_jobs := dinsert st.active_jobs jid j } rest with
      | .ok (st2, ids) => .ok (st2, mid :: ids)
      | .error e => .error e

/-- The chunk loop of `submit_batch_jobs`: send each chunk in order; a
transport error (`ClientError`) is re-raised, aborting the remaining
chunks; per-entry failures are only logged.  The first component is the
transcript of chunks actually sent. -/
def submit_batch_chunks (sendB : List TestJob → Except String SendBatchResult) :
    CoordState → List (List TestJob) → List (List TestJob) × Except String (CoordState × List String)
  | st, [] => ([], .ok (st, []))
  | st, c :: rest =>
    match sendB c with
    | .error e => ([c], .error e)
    | .ok (succ, _fails) =>
      match track_successes c st succ with
      | .error e => ([c], .error e)
      | .ok (st2, ids) =>
        match submit_batch_chunks sendB st2 rest with
        | (tr, .ok (st3, ids2)) => (c :: tr, .ok (st3, ids ++ ids2))
        | (tr, .error e) => (c :: tr, .error e)

/-- Fuel-indexed chunking; with `fuel ≥ l.length` and `k ≥ 1` this is the
Python slicing loop `for i in range(0, len(jobs), k): jobs[i:i + k]`. -/
def chunksOfFuel (k : Nat) : Nat → List α → List (List α)
  | _, [] => []
  | 0, l => [l]
  | fuel + 1, l => l.take k :: chunksOfFuel k fuel (l.drop k)

/-- `jobs[i:i + k]` chunking of a whole list. -/
def chunksOf (k : Nat) (l : List α) : List (List α) := chunksOfFuel k l.length l

/-- The sizes `chunksOf` produces, as a function of the length only. -/
def chunkSizesFuel (k : Nat) : Nat → Nat → List Nat
  | _, 0 => []
  | 0, n + 1 => [n + 1]
  | fuel + 1, n + 1 => min k (n + 1) :: chunkSizesFuel k fuel (n + 1 - k)

/-- `DistributedTestCoordinator.submit_batch_jobs`: process the jobs in
chunks of 10 (the SQS batch limit, hard-coded at line 150). -/
def submit_batch_jobs (sendB : List TestJob → Except String SendBatchResult)
    (st : CoordState) (jobs : List TestJob) :
    List (List TestJob) × Except String (CoordState × List String) :=
  submit_batch_chunks sendB st (chunksOf 10 jobs)

/-! ### Execution strategies (`parallel_executor.py`)

The executor runs in the submitting process; no consumer loop runs inside
`execute_test_suite`, so between the polls of `_wait_for_job_completion`
the coordinator state visible to the executor does not change (the maps
are mutated only through the coordinator's own methods, called here).  A
job's wait therefore succeeds exactly when `completed_jobs` already holds
a result for its id, and otherwise polls until the timeout expires. -/

/-- The `ExecutionStrategy` enum. -/
inductive ExecutionStrategy where
  | sequential
  | parallel_files
  | parallel_functions
  | hybrid
  | load_balanced
deriving DecidableEq

/-- The `ExecutionConfig` dataclass (fields the model observes). -/
structure ExecutionConfig where
  strategy : ExecutionStrategy
  max_workers : Nat := 4
  timeout_seconds : Nat := 300
  retry_attempts : Nat := 3
  batch_size : Nat := 10
deriving DecidableEq

/-- The `ExecutionResult` dataclass.  `execution_time_ms` and the
throughput derived from it are wall-clock readings outside the model. -/
structure ExecutionResult where
  total_jobs : Nat
  completed_jobs : Nat
  failed_jobs : Nat
  average_job_time_ms : ℚ
  error_rate_percentage : ℚ
  results : List TestResult
deriving DecidableEq

/-- The message of the `TimeoutError` raised at line 338. -/
def timeout_message (id : String) (timeout : Nat) : String :=
  "Job " ++ id ++ " did not complete within " ++ Nat.repr timeout ++ " seconds"

/-- The polling loop of `_wait_for_job_completion` (lines 325 to 335): one
status check per elapsed time unit, `timeout` checks in all; `completed`
returns the stored result, `processing` and `not_found` keep polling. -/
def wait_poll (st : CoordState) (id : String) (msg : String) : Nat → Except String TestResult
  | 0 => .error msg
  | fuel + 1 =>
    match get_job_status st id with
    | .completed r => .ok r
    | _ => wait_poll st id msg fuel

/-- `ParallelTestExecutor._wait_for_job_completion` (lines 309 to 338):
polls `get_status` up to `timeout` times, then fails with the
`TimeoutError` text. -/
def wait_for_job_completion (st : CoordState) (id : String) (timeout : Nat) :
    Except String TestResult :=
  wait_poll st id (timeout_message id timeout) timeout

/-- `_execute_sequential` (lines 126 to 159): submit job i, wait for it,
convert any exception (the timeout included) into a synthesized failed
`TestResult`, then move to job i+1. -/
def execute_sequential (st : CoordState) (timeout : Nat) :
    List TestJob → CoordState × List TestResult
  | [] => (st, [])
  | job :: rest =>
    let st1 := submit_test_job st job
    let r :=
      match wait_for_job_completion st1 job.id timeout with
      | .ok r => r
      | .error e => failure_result job.id e
    let (st2, rs) := execute_sequential st1 timeout rest
    (st2, r :: rs)

/-- One window of `_execute_parallel_files` (lines 175 to 208): submit the
whole batch, then await each member, converting exceptions into failed
results. -/
def run_batch_window (st : CoordState) (timeout : Nat) (batch : List TestJob) :
    CoordState × List TestResult :=
  let st1 := batch.foldl submit_test_job st
  (st1, batch.map (fun job =>
    match wait_for_job_completion st1 job.id timeout with
    | .ok r => r
    | .error e => failure_result job.id e))

/-- The window loop of `_execute_parallel_files`. -/
def run_batch_windows (st : CoordState) (timeout : Nat) :
    List (List TestJob) → CoordState × List TestResult
  | [] => (st, [])
  | c :: rest =>
    let (st1, rs) := run_batch_window st timeout c
    let (st2, rs2) := run_batch_windows st1 timeout rest
    (st2, rs ++ rs2)

/-- `_execute_parallel_files` (lines 161 to 213): fixed-size windows of
`batch_size`, resolved window by window. -/
def execute_parallel_files (st : CoordState) (timeout batchSize : Nat)
    (jobs : List TestJob) : CoordState × List TestResult :=
  run_batch_windows st timeout (chunksOf batchSize jobs)

/-- `_execute_parallel_functions` (lines 215 to 252): every job runs
submit-then-wait under a semaphore, exceptions become failed results.  In
this synchronous projection the semaphore and the completion order are not
observable, leaving one submit-and-wait per job in order. -/
def execute_parallel_functions (st : CoordState) (timeout : Nat) :
    List TestJob → CoordState × List TestResult
  | [] => (st, [])
  | job :: rest =>
    let st1 := submit_test_job st job
    let r :=
      match wait_for_job_completion st1 job.id timeout with
      | .ok r => r
      | .error e => failure_result job.id e
    let (st2, rs) := execute_parallel_functions st1 timeout rest
    (st2, r :: rs)

/-- `_execute_hybrid` (lines 254 to 286): partition by priority; run the
priority-1 group sequentially, the priority-2 group in parallel batches,
the priority-3 group with function-level parallelism; concatenate in tier
order.  Jobs with any other priority sit in `priority_groups` but are
never executed. -/
def execute_hybrid (st : CoordState) (timeout batchSize : Nat)
    (jobs : List TestJob) : CoordState × List TestResult :=
  let tier1 := jobs.filter (fun j => j.priority == 1)
  let tier2 := jobs.filter (fun j => j.priority == 2)
  let tier3 := jobs.filter (fun j => j.priority == 3)
  let (s1, r1) := execute_sequential st timeout tier1
  let (s2, r2) := execute_parallel_files s1 timeout batchSize tier2
  let (s3, r3) := execute_parallel_functions s2 timeout tier3
  (s3, r1 ++ r2 ++ r3)

/-- The queue statistics `_execute_load_balanced` reads (the
`messages_available` / `messages_in_flight` fields of `get_queue_stats`). -/
structure QueueStats where
  messages_available : Nat
  messages_in_flight : Nat
deriving DecidableEq

/-- The strategy `_execute_load_balanced` (lines 288 to 307) selects from
the queue statistics: available > 50 gives sequential, else in-flight < 10
gives function-level parallelism, else parallel files. -/
def load_balanced_choice (stats : QueueStats) : ExecutionStrategy :=
  if stats.messages_available > 50 then .sequential
  else if stats.messages_in_flight < 10 then .parallel_functions
  else .parallel_files

/-- `_execute_load_balanced`: query the stats once, then run the selected
strategy over all the jobs. -/
def execute_load_balanced (stats : QueueStats) (st : CoordState)
    (timeout batchSize : Nat) (jobs : List TestJob) : CoordState × List TestResult :=
  if stats.messages_available > 50 then execute_sequential st timeout jobs
  else if stats.messages_in_flight < 10 then execute_parallel_functions st timeout jobs
  else execute_parallel_files st timeout batchSize jobs

/-- `execute_test_suite` (lines 68 to 124): dispatch on the configured
strategy, then aggregate the per-job results.  `stats` is the queue
snapshot the load-balanced strategy would read. -/
def execute_test_suite (st : CoordState) (cfg : ExecutionConfig)
    (stats : QueueStats) (jobs : List TestJob) : ExecutionResult × CoordState :=
  let pr :=
    match cfg.strategy with
    | .sequential => execute_sequential st cfg.timeout_seconds jobs
    | .parallel_files => execute_parallel_files st cfg.timeout_seconds cfg.batch_size jobs
    | .parallel_functions => execute_parallel_functions st cfg.timeout_seconds jobs
    | .hybrid => execute_hybrid st cfg.timeout_seconds cfg.batch_size jobs
    | .load_balanced => execute_load_balanced stats st cfg.timeout_seconds cfg.batch_size jobs
  let results := pr.2
  let completed := results.countP (fun r => r.success)
  let failed := results.countP (fun r => !r.success)
  (⟨jobs.length, completed, failed,
    (if results.isEmpty then 0 else
      ((results.map (fun r => (r.execution_time_ms : ℚ))).sum) / (results.length : ℚ)),
    (if results.isEmpty then 0 else (failed : ℚ) / (results.length : ℚ) * 100),
    results⟩, pr.1)

/-! ### Shared lemmas about rounding and scoring -/

/-- Rounding to two decimals is the identity on rationals that are integer
multiples of `1/100` — in particular on every reachable priority score. -/
theorem round2_int_mul (q : ℚ) (n : ℤ) (h : q * 100 = n) : round2 q = q := by
  unfold round2
  rw [h, Int.floor_int_add, show (⌊(1/2 : ℚ)⌋ : ℤ) = 0 from by
    rw [Int.floor_eq_zero_iff]; constructor <;> norm_num]
  have hq : q = (n : ℚ) / 100 := by
    field_simp at h ⊢
    linarith
  rw [hq]
  push_cast
  ring

/-- Rounding to two decimals is monotone. -/
theorem round2_mono {q r : ℚ} (h : q ≤ r) : round2 q ≤ round2 r := by
  unfold round2
  have h2 : (⌊q * 100 + 1/2⌋ : ℤ) ≤ ⌊r * 100 + 1/2⌋ :=
    Int.floor_le_floor (by linarith)
  have h3 : ((⌊q * 100 + 1/2⌋ : ℤ) : ℚ) ≤ ((⌊r * 100 + 1/2⌋ : ℤ) : ℚ) := by
    exact_mod_cast h2
  linarith

/-- Every per-type multiplier is nonnegative. -/
theorem type_multiplier_nonneg (t : ErrorType) : 0 ≤ type_multiplier t := by
  cases t <;> norm_num [type_multiplier]

/-- The computed score equals the amended closed form
`round2 ((10 - severity) * weight * critical-path factor)`. -/
theorem calculate_eq_amended (t : ErrorType) (s : ErrorSeverity) (ctx : ErrorContext) :
    calculate_priority_score t s ctx = amended_priority_score t s ctx := by
  unfold calculate_priority_score amended_priority_score
  by_cases h : is_critical_path ctx.file_path <;> simp [h]

/-- The score never increases as the severity ordinal increases (type and
context fixed). -/
theorem calculate_antitone (t : ErrorType) (ctx : ErrorContext) (s s' : ErrorSeverity)
    (h : severity_value s ≤ severity_value s') :
    calculate_priority_score t s' ctx ≤ calculate_priority_score t s ctx := by
  unfold calculate_priority_score
  apply round2_mono
  have hb : (10 - (severity_value s' : ℚ)) ≤ 10 - (severity_value s : ℚ) := by
    have : (severity_value s : ℚ) ≤ (severity_value s' : ℚ) := by exact_mod_cast h
    linarith
  have hm := type_multiplier_nonneg t
  by_cases hc : is_critical_path ctx.file_path <;> simp [hc]
  · have := mul_le_mul_of_nonneg_right hb hm
    nlinarith
  · exact mul_le_mul_of_nonneg_right hb hm

/-- Score of a critical TypeScript error in a non-critical-path file. -/
theorem calc_ts_critical :
    calculate_priority_score .typescript .critical ⟨"app.ts", none, none, none, none, none⟩
      = 54/5 := by
  unfold calculate_priority_score
  rw [show is_critical_path "app.ts" = false from by decide]
  simp only [Bool.false_eq_true, if_false, severity_value, type_multiplier]
  rw [show ((10 : ℚ) - (1 : Nat)) * (6/5) = 54/5 by norm_num]
  rw [round2_int_mul (54/5) 1080 (by norm_num)]

/-- The same input under the claim's base formula `5 - severity`. -/
theorem claimed_ts_critical :
    claimed_priority_score .typescript .critical ⟨"app.ts", none, none, none, none, none⟩
      = 24/5 := by
  unfold claimed_priority_score
  rw [show is_critical_path "app.ts" = false from by decide]
  simp only [Bool.false_eq_true, if_false, severity_value, type_multiplier]
  rw [show (((4:ℚ) + 1) - (1 : Nat)) * (6/5) * 1 = 24/5 by norm_num]
  rw [round2_int_mul (24/5) 480 (by norm_num)]

/-! ### Claim C1 -/

/-- Claim C1, counterexample: the claim's base formula
`(max_severity_ordinal + 1) - severity_ordinal = 5 - severity` disagrees
with the code, whose base is `10.0 - severity` (line 290).  For a critical
TypeScript error in `app.ts` the code scores `round(9 * 1.2, 2) = 10.8`,
while the claimed formula gives `round(4 * 1.2, 2) = 4.8`. -/
theorem priority_score_claim_counterexample :
    calculate_priority_score .typescript .critical ⟨"app.ts", none, none, none, none, none⟩
      = 54/5 ∧
    claimed_priority_score .typescript .critical ⟨"app.ts", none, none, none, none, none⟩
      = 24/5 ∧
    calculate_priority_score .typescript .critical ⟨"app.ts", none, none, none, none, none⟩
      ≠ claimed_priority_score .typescript .critical ⟨"app.ts", none, none, none, none, none⟩ := by
  refine ⟨calc_ts_critical, claimed_ts_critical, ?_⟩
  rw [calc_ts_critical, claimed_ts_critical]
  norm_num

/-- Claim C1 (amended): `calculate_priority_score` returns
`round2 ((10 - severity_ordinal) * per-type weight * (1.2 if the file path
contains a critical-path substring, else 1.0))` — type-system errors
weighted 1.2, build 1.3, lint 0.8 — and the score is antitone in the
severity ordinal, so critical severity scores highest. -/
theorem priority_score_amended (t : ErrorType) (s : ErrorSeverity) (ctx : ErrorContext) :
    calculate_priority_score t s ctx = amended_priority_score t s ctx ∧
    (∀ s', severity_value s ≤ severity_value s' →
      calculate_priority_score t s' ctx ≤ calculate_priority_score t s ctx) ∧
    calculate_priority_score t s ctx ≤ calculate_priority_score t .critical ctx :=
  ⟨calculate_eq_amended t s ctx,
   fun s' h => calculate_antitone t ctx s s' h,
   calculate_antitone t ctx .critical s (by cases s <;> decide)⟩

/-- Claim C1 (amended), witness at type-system / critical vs low severity. -/
theorem priority_score_amended_witness :
    severity_value .critical ≤ severity_value .low ∧
    calculate_priority_score .typescript .low ⟨"app.ts", none, none, none, none, none⟩
      ≤ calculate_priority_score .typescript .critical ⟨"app.ts", none, none, none, none, none⟩ :=
  ⟨by decide,
   (priority_score_amended .typescript .critical
      ⟨"app.ts", none, none, none, none, none⟩).2.1 .low (by decide)⟩

/-! ### Claim C4 -/

/-- Claim C4 (confirmed): type classification follows exactly the claimed
order — the statically-typed-extension check (with a type-system pattern
match) first, then the test-file-path check (with a test pattern match),
then the pattern groups in the fixed enumeration order of the pattern
table, else GENERAL; equivalently, classification is the explicit ordered
list of (predicate, type) pairs of `classify_error_type_spec`. -/
theorem classification_order_confirmed : ∀ (msg : String) (ctx : ErrorContext),
    classify_error_type msg ctx = classify_error_type_spec msg ctx := by
  intro msg ctx
  simp only [classify_error_type, classify_error_type_spec, error_patterns, scanFirst, firstTrue]

/-! ### Concrete jobs, oracles and states used by the scenario claims -/

/-- Decidable equality of transport results. -/
instance {e a : Type} [DecidableEq e] [DecidableEq a] : DecidableEq (Except e a) := fun x y =>
  match x, y with
  | .error u, .error v =>
    if h : u = v then .isTrue (h ▸ rfl) else .isFalse (fun hh => h (Except.error.inj hh))
  | .ok u, .ok v =>
    if h : u = v then .isTrue (h ▸ rfl) else .isFalse (fun hh => h (Except.ok.inj hh))
  | .error _, .ok _ => .isFalse (fun hh => Except.noConfusion hh)
  | .ok _, .error _ => .isFalse (fun hh => Except.noConfusion hh)

/-- A fresh job with the default retry budget (`retry_count = 0`,
`max_retries = 3`). -/
def jobJ : TestJob := { id := "j1", code := "code", language := "python" }

/-- A job whose first failure is already terminal (`max_retries = 0`). -/
def jobZ : TestJob := { id := "z1", code := "code", language := "python", max_retries := 0 }

/-- A job delivered with its retry budget exhausted (`retry_count = 3`). -/
def jobX : TestJob := { id := "x1", code := "code", language := "python", retry_count := 3 }

/-- A high-priority job (tier 1 of the hybrid strategy). -/
def jobP1 : TestJob := { id := "p1", code := "code", language := "python", priority := 1 }

/-- A job with priority 4: outside every tier of the hybrid strategy. -/
def jobP4 : TestJob := { id := "p4", code := "code", language := "python", priority := 4 }

/-- An inference step that always raises, with text `"boom"`. -/
def failInfer : TestJob → Option String := fun _ => some "boom"

/-- The coordinator right after `submit_test_job` of the fresh job. -/
def stJ0 : CoordState := submit_test_job emptyCoord jobJ

/-- Numbered batch jobs `b0`, `b1`, …. -/
def mkBatchJob (i : Nat) : TestJob :=
  { id := "b" ++ Nat.repr i, code := "code", language := "python" }

/-- Eleven batch jobs: two chunks of sizes 10 and 1. -/
def jobs11 : List TestJob := (List.range 11).map mkBatchJob

/-- Twenty-five batch jobs: three chunks of sizes 10, 10 and 5. -/
def jobs25 : List TestJob := (List.range 25).map mkBatchJob

/-- A transport that raises `ClientError` on the chunk containing `b0` and
accepts every entry of any other chunk. -/
def failFirstSend : List TestJob → Except String SendBatchResult :=
  fun c => if c.any (fun j => j.id == "b0") then .error "boom"
           else .ok (c.map (fun j => (j.id, "m-" ++ j.id)), [])

/-- A transport whose calls all succeed but report every entry as failed. -/
def allEntriesFailSend : List TestJob → Except String SendBatchResult :=
  fun c => .ok ([], c.map (fun j => j.id))

/-! ### Shared lemmas about the consumer loop -/

/-- A consumer with an empty queue does nothing. -/
theorem run_consumer_nil (infer : TestJob → Option String) (f : Nat) (st : CoordState)
    (h : st.queue = []) : run_consumer infer f st = st := by
  cases f <;> simp [run_consumer, h]

/-- Consumer fuel composes. -/
theorem run_consumer_add (infer : TestJob → Option String) (a b : Nat) (st : CoordState) :
    run_consumer infer (a + b) st = run_consumer infer b (run_consumer infer a st) := by
  induction a generalizing st with
  | zero => simp [run_consumer]
  | succ n ih =>
    rcases hq : st.queue with _ | ⟨j, rest⟩
    · rw [run_consumer_nil _ _ _ hq, run_consumer_nil _ _ _ hq, run_consumer_nil _ _ _ hq]
    · have l1 : run_consumer infer (n + 1 + b) st
          = run_consumer infer (n + b) (process_single_job infer { st with queue := rest } j) := by
        rw [show n + 1 + b = (n + b) + 1 from by omega]
        simp [run_consumer, hq]
      have l2 : run_consumer infer (n + 1) st
          = run_consumer infer n (process_single_job infer { st with queue := rest } j) := by
        simp [run_consumer, hq]
      rw [l1, l2, ih]

/-- If no result for `id` is recorded in `completed_jobs`, polling only ever
sees `processing` or `not_found` and the wait expires. -/
theorem wait_poll_times_out (st : CoordState) (id : String) (msg : String)
    (hc : dlookup st.completed_jobs id = none) :
    ∀ f, wait_poll st id msg f = .error msg := by
  intro f
  induction f with
  | zero => rfl
  | succ n ih =>
    unfold wait_poll get_job_status
    rw [hc]
    cases dlookup st.active_jobs id <;> simpa using ih

/-! ### Claim C2 -/

/-- Claim C2, counterexample: after the fresh job (retry budget 0 of 3) has
failed exactly 3 times, no terminal failed Result has been stored (the
claim asserts exactly one), the job has already been resubmitted 3 times
(retry counts 1, 2, 3 after the initial submission), and it is still
queued: the terminal Result only appears at the 4th failure. -/
theorem retry_three_failures_counterexample :
    (run_consumer failInfer 3 stJ0).store.countP (fun p => p.1 == "j1" && !p.2.success) = 0 ∧
    (run_consumer failInfer 3 stJ0).submit_log.map (fun j => j.retry_count) = [0, 1, 2, 3] ∧
    (run_consumer failInfer 3 stJ0).queue ≠ [] :=
  ⟨by decide, by decide, by decide⟩

/-- Claim C2 (amended): a Job created with `retry_count = 0` and
`max_retries = 3` whose processing always fails is attempted 4 times (the
initial delivery plus 3 resubmissions); once the consumer drains the queue
it has produced exactly one terminal failed Result, the submission log
shows exactly the retry counts 0, 1, 2, 3 (so the job is never resubmitted
a 4th time), and the queue stays empty no matter how long the consumer
keeps running. -/
theorem retry_exhaustion_amended : ∀ extra : Nat,
    (run_consumer failInfer (4 + extra) stJ0).store.countP
        (fun p => p.1 == "j1" && !p.2.success) = 1 ∧
    (run_consumer failInfer (4 + extra) stJ0).submit_log.map (fun j => j.retry_count)
        = [0, 1, 2, 3] ∧
    (run_consumer failInfer (4 + extra) stJ0).queue = [] := by
  intro extra
  rw [run_consumer_add failInfer 4 extra stJ0]
  rw [run_consumer_nil failInfer extra _ (by decide)]
  exact ⟨by decide, by decide, by decide⟩

/-! ### Claim C3 -/

/-- Claim C3, counterexample: the synthesized terminal failure stores
`error_message = str(e)`, and an exception with empty text (Python
`Exception()` has `str(e) = ""`) yields a reachable terminal Result with
`success = false` whose `error_message` is the empty string — present but
not non-empty, contradicting the claim's "non-empty error_message". -/
theorem terminal_empty_error_message_counterexample :
    (run_consumer (fun _ => some "") 1 (submit_test_job emptyCoord jobZ)).store.map
        (fun p => (p.1, p.2.success, p.2.error_message))
      = [("z1", false, some "")] := by decide

/-- Claim C3 (amended): one processing step only ever adds to the queue a
resubmission of the processed job with `retry_count` exactly one larger,
and only when `retry_count < max_retries` held, so the new count still
satisfies `retry_count ≤ max_retries`; and every Result the step adds to
the store either has `success = true` or carries an `error_message` (which
is the exception text and may be empty). -/
theorem job_retry_invariants_amended (infer : TestJob → Option String)
    (st : CoordState) (job : TestJob) :
    (∀ j ∈ (process_single_job infer st job).queue,
      j ∈ st.queue ∨
        (j.retry_count = job.retry_count + 1 ∧ job.retry_count < job.max_retries ∧
         j.retry_count ≤ j.max_retries ∧ j.id = job.id)) ∧
    (∀ p ∈ (process_single_job infer st job).store,
      p ∈ st.store ∨ p.2.success = true ∨ p.2.error_message.isSome) := by
  unfold process_single_job
  cases hi : infer job with
  | none =>
    constructor
    · intro j hj
      exact Or.inl hj
    · intro p hp
      simp only [List.mem_append, List.mem_singleton] at hp
      rcases hp with hp | hp
      · exact Or.inl hp
      · right; left
        rw [hp]
        rfl
  | some e =>
    by_cases hr : job.retry_count < job.max_retries
    · simp only [if_pos hr, submit_test_job]
      constructor
      · intro j hj
        simp only [List.mem_append, List.mem_singleton] at hj
        rcases hj with hj | hj
        · exact Or.inl hj
        · right
          subst hj
          exact ⟨rfl, hr, by simp; omega, rfl⟩
      · intro p hp
        exact Or.inl hp
    · simp only [if_neg hr]
      constructor
      · intro j hj
        exact Or.inl hj
      · intro p hp
        simp only [List.mem_append, List.mem_singleton] at hp
        rcases hp with hp | hp
        · exact Or.inl hp
        · right; right
          rw [hp]
          simp [failure_result]

/-- Claim C3 (amended), witness: the fresh job, failing once, is requeued
with retry count 1, and the step theorem applies to that queue entry. -/
theorem job_retry_invariants_amended_witness :
    ({ jobJ with retry_count := 1 }
        ∈ (process_single_job (fun _ => some "x") emptyCoord jobJ).queue) ∧
    ({ jobJ with retry_count := 1 } ∈ emptyCoord.queue ∨
      ({ jobJ with retry_count := 1 }.retry_count = jobJ.retry_count + 1 ∧
       jobJ.retry_count < jobJ.max_retries ∧
       { jobJ with retry_count := 1 }.retry_count
         ≤ { jobJ with retry_count := 1 }.max_retries ∧
       { jobJ with retry_count := 1 }.id = jobJ.id)) :=
  ⟨by decide,
   (job_retry_invariants_amended (fun _ => some "x") emptyCoord jobJ).1 _ (by decide)⟩

/-! ### Claim C9 -/

/-- Claim C9 (confirmed): on the retry-exhaustion path the consumer
persists the synthesized failed Result to the store but leaves
`completed_jobs` and `active_jobs` untouched; if no completed entry for
the job id existed, `get_job_status` keeps answering `processing` (when
the id is in the active map) or `not_found` (when it is not), never
`completed`, and any wait on that id polls until it times out. -/
theorem retry_exhaustion_frame_confirmed (infer : TestJob → Option String)
    (st : CoordState) (job : TestJob) (e : String) (hi : infer job = some e)
    (hr : job.max_retries ≤ job.retry_count)
    (hc : dlookup st.completed_jobs job.id = none) :
    (process_single_job infer st job).completed_jobs = st.completed_jobs ∧
    (process_single_job infer st job).active_jobs = st.active_jobs ∧
    (process_single_job infer st job).store
      = st.store ++ [(job.id, failure_result job.id e)] ∧
    get_job_status (process_single_job infer st job) job.id
      = (match dlookup st.active_jobs job.id with
         | some j => JobStatus.processing j
         | none => JobStatus.not_found) ∧
    (∀ timeout, wait_for_job_completion (process_single_job infer st job) job.id timeout
        = .error (timeout_message job.id timeout)) := by
  have hstep : process_single_job infer st job
      = { st with store := st.store ++ [(job.id, failure_result job.id e)] } := by
    unfold process_single_job
    rw [hi]
    dsimp only
    rw [if_neg (by omega)]
  refine ⟨by rw [hstep], by rw [hstep], by rw [hstep], ?_, ?_⟩
  · rw [hstep]
    unfold get_job_status
    rw [show dlookup ({ st with
        store := st.store ++ [(job.id, failure_result job.id e)] } : CoordState).completed_jobs
        job.id = none from hc]
  · intro timeout
    unfold wait_for_job_completion
    apply wait_poll_times_out
    rw [hstep]
    exact hc

/-- Claim C9 (confirmed), witness: a job delivered with its budget
exhausted, failing once more against a coordinator that was tracking it:
the active map is untouched and a 5-unit wait on the id times out. -/
theorem retry_exhaustion_frame_confirmed_witness :
    (process_single_job failInfer (submit_test_job emptyCoord jobX) jobX).active_jobs
      = (submit_test_job emptyCoord jobX).active_jobs ∧
    wait_for_job_completion
        (process_single_job failInfer (submit_test_job emptyCoord jobX) jobX) jobX.id 5
      = .error (timeout_message jobX.id 5) :=
  ⟨(retry_exhaustion_frame_confirmed failInfer (submit_test_job emptyCoord jobX) jobX
      "boom" rfl (by decide) (by decide)).2.1,
   (retry_exhaustion_frame_confirmed failInfer (submit_test_job emptyCoord jobX) jobX
      "boom" rfl (by decide) (by decide)).2.2.2.2 5⟩

/-! ### Claim C5 -/

/-- Claim C5 (confirmed): one queue-stats read per `execute` call selects
exactly one strategy — available > 50 runs Sequential, else in-flight < 10
runs Bounded-parallel (`parallel_functions`), else Batched-parallel
(`parallel_files`) — and in particular available=60 selects Sequential,
available=5 with in-flight=2 selects Bounded-parallel, and available=20
with in-flight=15 selects Batched-parallel. -/
theorem load_balanced_thresholds_confirmed :
    (∀ (stats : QueueStats) (st : CoordState) (tmo bs : Nat) (jobs : List TestJob),
      (stats.messages_available > 50 →
        execute_load_balanced stats st tmo bs jobs = execute_sequential st tmo jobs) ∧
      (stats.messages_available ≤ 50 → stats.messages_in_flight < 10 →
        execute_load_balanced stats st tmo bs jobs = execute_parallel_functions st tmo jobs) ∧
      (stats.messages_available ≤ 50 → 10 ≤ stats.messages_in_flight →
        execute_load_balanced stats st tmo bs jobs = execute_parallel_files st tmo bs jobs)) ∧
    (∀ i, load_balanced_choice ⟨60, i⟩ = .sequential) ∧
    load_balanced_choice ⟨5, 2⟩ = .parallel_functions ∧
    load_balanced_choice ⟨20, 15⟩ = .parallel_files := by
  refine ⟨?_, ?_, by decide, by decide⟩
  · intro stats st tmo bs jobs
    refine ⟨fun h => ?_, fun h1 h2 => ?_, fun h1 h2 => ?_⟩
    · unfold execute_load_balanced
      rw [if_pos h]
    · unfold execute_load_balanced
      rw [if_neg (by omega), if_pos h2]
    · unfold execute_load_balanced
      rw [if_neg (by omega), if_neg (by omega)]
  · intro i
    simp [load_balanced_choice]

/-- Claim C5 (confirmed), witness: a backlog of 60 runs the jobs
sequentially. -/
theorem load_balanced_thresholds_confirmed_witness :
    execute_load_balanced ⟨60, 0⟩ emptyCoord 1 10 [jobJ]
      = execute_sequential emptyCoord 1 [jobJ] :=
  (load_balanced_thresholds_confirmed.1 ⟨60, 0⟩ emptyCoord 1 10 [jobJ]).1 (by decide)

/-! ### Claim C7 -/

/-- Claim C7, counterexample: a sequential execution of one job against a
coordinator that never completes it (no consumer runs) does not surface the
`TimeoutError` to the caller of `execute` — `_execute_sequential` catches
it (line 144) and converts it into a failed per-job `TestResult` carrying
the timeout text, and `execute_test_suite` returns an `ExecutionResult`
with that one failed result. -/
theorem timeout_swallowed_counterexample :
    ((execute_test_suite emptyCoord ⟨.sequential, 4, 2, 3, 10⟩ ⟨0, 0⟩ [jobJ]).1).results.map
        (fun r => (r.job_id, r.success, r.error_message))
      = [("j1", false, some (timeout_message "j1" 2))] ∧
    ((execute_test_suite emptyCoord ⟨.sequential, 4, 2, 3, 10⟩ ⟨0, 0⟩ [jobJ]).1).failed_jobs
      = 1 :=
  ⟨by decide, by decide⟩

/-- Claim C7 (amended): when the per-job completion wait expires, the
`TimeoutError` is caught by the executing strategy and converted into a
failed per-job Result whose `error_message` is the timeout text;
`execute` returns an `ExecutionResult` normally (here with one failed and
zero completed jobs) instead of propagating the error. -/
theorem timeout_converted_amended (st : CoordState) (job : TestJob)
    (mw tmo rr bs : Nat) (stats : QueueStats)
    (hc : dlookup st.completed_jobs job.id = none) :
    ((execute_test_suite st ⟨.sequential, mw, tmo, rr, bs⟩ stats [job]).1).results
      = [failure_result job.id (timeout_message job.id tmo)] ∧
    ((execute_test_suite st ⟨.sequential, mw, tmo, rr, bs⟩ stats [job]).1).failed_jobs = 1 ∧
    ((execute_test_suite st ⟨.sequential, mw, tmo, rr, bs⟩ stats [job]).1).completed_jobs
      = 0 := by
  have hw : wait_for_job_completion (submit_test_job st job) job.id tmo
      = .error (timeout_message job.id tmo) := by
    unfold wait_for_job_completion
    exact wait_poll_times_out _ _ _
      (show dlookup (submit_test_job st job).completed_jobs job.id = none from hc) tmo
  simp only [execute_test_suite, execute_sequential, hw]
  simp [failure_result]

/-- Claim C7 (amended), witness at the fresh job with a 2-unit timeout. -/
theorem timeout_converted_amended_witness :
    dlookup emptyCoord.completed_jobs jobJ.id = none ∧
    ((execute_test_suite emptyCoord ⟨.sequential, 4, 2, 3, 10⟩ ⟨0, 0⟩ [jobJ]).1).results
      = [failure_result jobJ.id (timeout_message jobJ.id 2)] :=
  ⟨by decide,
   (timeout_converted_amended emptyCoord jobJ 4 2 3 10 ⟨0, 0⟩ (by decide)).1⟩

/-! ### Shared lemmas about strategy result counts -/

/-- Sequential execution yields one result per job. -/
theorem execute_sequential_length (tmo : Nat) :
    ∀ (jobs : List TestJob) (st : CoordState),
      (execute_sequential st tmo jobs).2.length = jobs.length := by
  intro jobs
  induction jobs with
  | nil => intro st; rfl
  | cons j t ih =>
    intro st
    unfold execute_sequential
    simp [ih]

/-- Bounded-parallel execution yields one result per job. -/
theorem execute_parallel_functions_length (tmo : Nat) :
    ∀ (jobs : List TestJob) (st : CoordState),
      (execute_parallel_functions st tmo jobs).2.length = jobs.length := by
  intro jobs
  induction jobs with
  | nil => intro st; rfl
  | cons j t ih =>
    intro st
    unfold execute_parallel_functions
    simp [ih]

/-- One batch window yields one result per member. -/
theorem run_batch_window_length (st : CoordState) (tmo : Nat) (b : List TestJob) :
    (run_batch_window st tmo b).2.length = b.length := by
  simp [run_batch_window]

/-- The window loop yields as many results as the windows hold jobs. -/
theorem run_batch_windows_length (tmo : Nat) :
    ∀ (cl : List (List TestJob)) (st : CoordState),
      (run_batch_windows st tmo cl).2.length = (cl.map List.length).sum := by
  intro cl
  induction cl with
  | nil => intro st; rfl
  | cons c t ih =>
    intro st
    unfold run_batch_windows
    simp [run_batch_window_length, ih]

/-- Chunking preserves the total number of elements. -/
theorem chunksOfFuel_sum_length (k : Nat) :
    ∀ (fuel : Nat) (l : List TestJob),
      ((chunksOfFuel k fuel l).map List.length).sum = l.length := by
  intro fuel
  induction fuel with
  | zero =>
    intro l
    cases l <;> simp [chunksOfFuel]
  | succ n ih =>
    intro l
    cases l with
    | nil => rfl
    | cons x t =>
      simp only [chunksOfFuel, List.map_cons, List.sum_cons, ih]
      simp [List.length_take, List.length_drop]
      omega

/-- Batched-parallel execution yields one result per job. -/
theorem execute_parallel_files_length (st : CoordState) (tmo bs : Nat) (jobs : List TestJob) :
    (execute_parallel_files st tmo bs jobs).2.length = jobs.length := by
  unfold execute_parallel_files chunksOf
  rw [run_batch_windows_length, chunksOfFuel_sum_length]

/-- The hybrid strategy yields one result per job of the three tiers. -/
theorem execute_hybrid_length (st : CoordState) (tmo bs : Nat) (jobs : List TestJob) :
    (execute_hybrid st tmo bs jobs).2.length
      = (jobs.filter (fun j => j.priority == 1)).length
        + (jobs.filter (fun j => j.priority == 2)).length
        + (jobs.filter (fun j => j.priority == 3)).length := by
  unfold execute_hybrid
  simp [execute_sequential_length, execute_parallel_files_length,
    execute_parallel_functions_length]
  omega

/-- Successes and failures partition a result list. -/
theorem countP_success_split (rs : List TestResult) :
    rs.countP (fun r => r.success) + rs.countP (fun r => !r.success) = rs.length := by
  induction rs with
  | nil => rfl
  | cons r t ih =>
    simp only [List.countP_cons]
    cases hr : r.success <;> simp [hr] <;> omega

/-- The three tiers together hold exactly the jobs with priority 1, 2 or 3. -/
theorem count_tiers (jobs : List TestJob) :
    (jobs.filter (fun j => j.priority == 1)).length
      + (jobs.filter (fun j => j.priority == 2)).length
      + (jobs.filter (fun j => j.priority == 3)).length
    = jobs.countP (fun j => j.priority == 1 || j.priority == 2 || j.priority == 3) := by
  induction jobs with
  | nil => rfl
  | cons j t ih =>
    simp only [List.filter_cons, List.countP_cons]
    by_cases h1 : j.priority = 1 <;> by_cases h2 : j.priority = 2 <;>
      by_cases h3 : j.priority = 3 <;> simp [h1, h2, h3] <;> omega

/-- A member that fails the predicate makes the count strictly smaller than
the length. -/
theorem countP_lt_length_of_mem {α : Type} (p : α → Bool) (l : List α) (a : α)
    (ha : a ∈ l) (hpa : p a = false) : l.countP p < l.length := by
  induction l with
  | nil => cases ha
  | cons x t ih =>
    simp only [List.countP_cons, List.length_cons]
    rcases List.mem_cons.mp ha with h | h
    · subst h
      have hle : t.countP p ≤ t.length := List.countP_le_length p
      simp [hpa]
      omega
    · have hlt := ih h
      by_cases hx : p x = true <;> simp [hx] <;> omega

/-! ### Claim C10 -/

/-- Claim C10 (confirmed): under the hybrid strategy, jobs whose priority
is not 1, 2 or 3 are silently dropped — the result list holds exactly one
result per job of the three tiers, `completed_jobs + failed_jobs` equals
that count while `total_jobs` counts all submitted jobs, so the presence
of any out-of-tier job makes `completed_jobs + failed_jobs` strictly less
than `total_jobs`.  (`0 < bs` keeps the batched tier inside the domain
where the Python chunking loop is defined.) -/
theorem hybrid_drops_unknown_priority_confirmed (st : CoordState) (stats : QueueStats)
    (mw tmo rr bs : Nat) (jobs : List TestJob) (_hbs : 0 < bs) :
    ((execute_test_suite st ⟨.hybrid, mw, tmo, rr, bs⟩ stats jobs).1).total_jobs
      = jobs.length ∧
    ((execute_test_suite st ⟨.hybrid, mw, tmo, rr, bs⟩ stats jobs).1).results.length
      = jobs.countP (fun j => j.priority == 1 || j.priority == 2 || j.priority == 3) ∧
    ((execute_test_suite st ⟨.hybrid, mw, tmo, rr, bs⟩ stats jobs).1).completed_jobs
        + ((execute_test_suite st ⟨.hybrid, mw, tmo, rr, bs⟩ stats jobs).1).failed_jobs
      = ((execute_test_suite st ⟨.hybrid, mw, tmo, rr, bs⟩ stats jobs).1).results.length ∧
    (∀ j ∈ jobs, (j.priority == 1 || j.priority == 2 || j.priority == 3) = false →
      ((execute_test_suite st ⟨.hybrid, mw, tmo, rr, bs⟩ stats jobs).1).completed_jobs
          + ((execute_test_suite st ⟨.hybrid, mw, tmo, rr, bs⟩ stats jobs).1).failed_jobs
        < ((execute_test_suite st ⟨.hybrid, mw, tmo, rr, bs⟩ stats jobs).1).total_jobs) := by
  have hres : ((execute_test_suite st ⟨.hybrid, mw, tmo, rr, bs⟩ stats jobs).1).results
      = (execute_hybrid st tmo bs jobs).2 := rfl
  have htot : ((execute_test_suite st ⟨.hybrid, mw, tmo, rr, bs⟩ stats jobs).1).total_jobs
      = jobs.length := rfl
  have hcf : ((execute_test_suite st ⟨.hybrid, mw, tmo, rr, bs⟩ stats jobs).1).completed_jobs
        + ((execute_test_suite st ⟨.hybrid, mw, tmo, rr, bs⟩ stats jobs).1).failed_jobs
      = ((execute_test_suite st ⟨.hybrid, mw, tmo, rr, bs⟩ stats jobs).1).results.length := by
    rw [hres]
    exact countP_success_split _
  have hlen : ((execute_test_suite st ⟨.hybrid, mw, tmo, rr, bs⟩ stats jobs).1).results.length
      = jobs.countP (fun j => j.priority == 1 || j.priority == 2 || j.priority == 3) := by
    rw [hres, execute_hybrid_length, count_tiers]
  refine ⟨htot, hlen, hcf, ?_⟩
  intro j hj hp
  rw [hcf, hlen, htot]
  exact countP_lt_length_of_mem _ jobs j hj hp

/-- Claim C10 (confirmed), witness: one priority-1 job and one priority-4
job: the priority-4 job is in the suite but `completed + failed < total`. -/
theorem hybrid_drops_unknown_priority_confirmed_witness :
    (0 : Nat) < 10 ∧ jobP4 ∈ [jobP1, jobP4] ∧
    (jobP4.priority == 1 || jobP4.priority == 2 || jobP4.priority == 3) = false ∧
    ((execute_test_suite emptyCoord ⟨.hybrid, 4, 1, 3, 10⟩ ⟨0, 0⟩ [jobP1, jobP4]).1).completed_jobs
        + ((execute_test_suite emptyCoord ⟨.hybrid, 4, 1, 3, 10⟩ ⟨0, 0⟩ [jobP1, jobP4]).1).failed_jobs
      < ((execute_test_suite emptyCoord ⟨.hybrid, 4, 1, 3, 10⟩ ⟨0, 0⟩ [jobP1, jobP4]).1).total_jobs :=
  ⟨by decide, by decide, by decide,
   (hybrid_drops_unknown_priority_confirmed emptyCoord ⟨0, 0⟩ 4 1 3 10 [jobP1, jobP4]
     (by decide)).2.2.2 jobP4 (by decide) (by decide)⟩

/-! ### Shared lemmas about batch submission -/

/-- The per-chunk success loop succeeds whenever every reported id is found
in the batch. -/
theorem track_successes_ok (batch : List TestJob) :
    ∀ (succ : List (String × String)) (st : CoordState),
      (∀ p ∈ succ, (batch.find? (fun j => j.id == p.1)).isSome) →
      ∃ st2 ids, track_successes batch st succ = .ok (st2, ids) := by
  intro succ
  induction succ with
  | nil => intro st _; exact ⟨st, [], rfl⟩
  | cons p rest ih =>
    intro st h
    have hp := h p (List.mem_cons_self p rest)
    obtain ⟨j, hj⟩ := Option.isSome_iff_exists.mp hp
    obtain ⟨st2, ids, hrec⟩ := ih { st with active_jobs := dinsert st.active_jobs p.1 j }
      (fun q hq => h q (List.mem_cons_of_mem p hq))
    refine ⟨st2, p.2 :: ids, ?_⟩
    unfold track_successes
    rw [hj]
    dsimp only
    rw [hrec]

/-- When the transport accepts every chunk's call (whatever the per-entry
outcomes), the chunk loop sends every chunk and raises nothing. -/
theorem submit_batch_chunks_all_ok (sendB : List TestJob → Except String SendBatchResult) :
    ∀ (chunks : List (List TestJob)) (st : CoordState),
      (∀ c ∈ chunks, ∃ succ fails, sendB c = .ok (succ, fails) ∧
        ∀ p ∈ succ, (c.find? (fun j => j.id == p.1)).isSome) →
      (submit_batch_chunks sendB st chunks).1 = chunks ∧
      ∃ st2 ids, (submit_batch_chunks sendB st chunks).2 = .ok (st2, ids) := by
  intro chunks
  induction chunks with
  | nil => intro st _; exact ⟨rfl, ⟨st, [], rfl⟩⟩
  | cons c rest ih =>
    intro st h
    obtain ⟨succ, fails, hsend, hfind⟩ := h c (List.mem_cons_self c rest)
    obtain ⟨st2, ids, htrack⟩ := track_successes_ok c succ st hfind
    obtain ⟨hrest1, st3, ids2, hrest2⟩ :=
      ih st2 (fun d hd => h d (List.mem_cons_of_mem c hd))
    refine ⟨?_, st3, ids ++ ids2, ?_⟩ <;>
      unfold submit_batch_chunks <;>
      rw [hsend] <;> dsimp only <;> rw [htrack] <;> dsimp only <;>
      rcases hq : submit_batch_chunks sendB st2 rest with ⟨tr, out⟩
    · rw [hq] at hrest1 hrest2
      dsimp only at hrest1 hrest2 ⊢
      rw [hrest2]
      simpa using hrest1
    · rw [hq] at hrest1 hrest2
      dsimp only at hrest1 hrest2 ⊢
      rw [hrest2]

/-- The chunk sizes only depend on the list length. -/
theorem chunksOfFuel_map_length (k : Nat) :
    ∀ (fuel : Nat) (l : List TestJob),
      (chunksOfFuel k fuel l).map List.length = chunkSizesFuel k fuel l.length := by
  intro fuel
  induction fuel with
  | zero =>
    intro l
    cases l <;> simp [chunksOfFuel, chunkSizesFuel]
  | succ n ih =>
    intro l
    cases l with
    | nil => rfl
    | cons x t =>
      simp only [chunksOfFuel, List.map_cons, ih]
      simp [chunkSizesFuel, List.length_take, List.length_drop]

/-! ### Claim C6 -/

/-- Claim C6, counterexample: with 11 jobs (two chunks, 10 and 1), a
transport `ClientError` on the first chunk's `send_message_batch` call is
re-raised at once: only one of the two chunks is ever sent and
`submit_batch_jobs` raises, even though the sibling chunk's call would
have succeeded — so a single chunk failure does abort sibling chunks, and
an error is raised although not every chunk fails. -/
theorem batch_chunk_error_aborts_counterexample :
    (chunksOf 10 jobs11).length = 2 ∧
    ((submit_batch_jobs failFirstSend emptyCoord jobs11).1).length = 1 ∧
    (submit_batch_jobs failFirstSend emptyCoord jobs11).2 = .error "boom" ∧
    failFirstSend [mkBatchJob 10] = .ok ([("b10", "m-b10")], []) :=
  ⟨by decide, by decide, by decide, by decide⟩

/-- Claim C6 (amended): per-entry failures inside a chunk's response are
reported per chunk and logged, never raised — as long as every chunk's
`send_message_batch` call itself succeeds at the transport level, every
chunk is sent and `submit_batch_jobs` returns normally, even if every
entry of every chunk is reported failed; only a transport-level
`ClientError` on a chunk's call is re-raised, and it aborts the remaining
chunks. -/
theorem batch_partial_failure_amended (sendB : List TestJob → Except String SendBatchResult)
    (st : CoordState) (jobs : List TestJob)
    (h : ∀ c ∈ chunksOf 10 jobs, ∃ succ fails, sendB c = .ok (succ, fails) ∧
      ∀ p ∈ succ, (c.find? (fun j => j.id == p.1)).isSome) :
    (submit_batch_jobs sendB st jobs).1 = chunksOf 10 jobs ∧
    ∃ st2 ids, (submit_batch_jobs sendB st jobs).2 = .ok (st2, ids) :=
  submit_batch_chunks_all_ok sendB (chunksOf 10 jobs) st h

/-- Claim C6 (amended), witness: a transport whose calls succeed but whose
responses report every entry failed still sends both chunks of the 11-job
batch and raises nothing. -/
theorem batch_partial_failure_amended_witness :
    (submit_batch_jobs allEntriesFailSend emptyCoord jobs11).1 = chunksOf 10 jobs11 ∧
    ∃ st2 ids, (submit_batch_jobs allEntriesFailSend emptyCoord jobs11).2 = .ok (st2, ids) :=
  batch_partial_failure_amended allEntriesFailSend emptyCoord jobs11
    (fun c _ => ⟨[], c.map (fun j => j.id),
      show allEntriesFailSend c = .ok ([], c.map (fun j => j.id)) from rfl,
      fun p hp => absurd hp (List.not_mem_nil p)⟩)

/-! ### Claim C8 -/

/-- Claim C8 (confirmed): submitting 25 jobs, when the transport accepts
every call, issues exactly 3 underlying `send_message_batch` calls whose
chunks have sizes 10, 10 and 5, in that order. -/
theorem batch_of_25_three_calls_confirmed
    (sendB : List TestJob → Except String SendBatchResult)
    (st : CoordState) (jobs : List TestJob) (hlen : jobs.length = 25)
    (h : ∀ c ∈ chunksOf 10 jobs, ∃ succ fails, sendB c = .ok (succ, fails) ∧
      ∀ p ∈ succ, (c.find? (fun j => j.id == p.1)).isSome) :
    ((submit_batch_jobs sendB st jobs).1).map List.length = [10, 10, 5] ∧
    ((submit_batch_jobs sendB st jobs).1).length = 3 := by
  have htr := (submit_batch_chunks_all_ok sendB (chunksOf 10 jobs) st h).1
  unfold submit_batch_jobs
  rw [htr]
  unfold chunksOf
  rw [chunksOfFuel_map_length, hlen]
  constructor
  · decide
  · have hml : ((chunksOfFuel 10 jobs.length jobs).map List.length).length
        = (chunkSizesFuel 10 25 25).length := by
      rw [chunksOfFuel_map_length, hlen]
    simp only [List.length_map] at hml
    rw [hlen] at hml
    rw [hml]
    decide

/-- Claim C8 (confirmed), witness at 25 concrete jobs. -/
theorem batch_of_25_three_calls_confirmed_witness :
    jobs25.length = 25 ∧
    ((submit_batch_jobs allEntriesFailSend emptyCoord jobs25).1).map List.length
      = [10, 10, 5] :=
  ⟨by decide,
   (batch_of_25_three_calls_confirmed allEntriesFailSend emptyCoord jobs25 (by decide)
     (fun c _ => ⟨[], c.map (fun j => j.id),
       show allEntriesFailSend c = .ok ([], c.map (fun j => j.id)) from rfl,
       fun p hp => absurd hp (List.not_mem_nil p)⟩)).1⟩

end Ddf
